import Mathlib

/-!
Shallow embedding of the GenAIDeployment controller (`controllers` package:
`GenAIDeploymentReconciler.Reconcile` with its helper functions
`constructRayCluster`, `updateRayCluster`, `updateRayClusterStatus`,
`reconcileSaisServiceDeployment`, `constructSaisServiceDeployment`,
`isEqual`, `reconcileVectorDbDeployment`, `constructVectorDbDeployment`)
and of `CreateResource` from `pkg/splunk/util/util.go`.

Modelling conventions:
- Kubernetes objects become plain structures; field payloads whose only
  observable use in the embedded code is construction and structural
  equality (resources, affinity, tolerations, topology spread constraints)
  are modelled as strings or association lists.
- Go pointers that the code compares with `==` (the `*int32` replicas field
  of a Deployment spec) are modelled as an allocation id paired with the
  pointee value; decoding an object fetched from the API server allocates a
  fresh id, and taking the address of a field of the in-memory descriptor
  yields an id derived from the descriptor's own allocation id.
- The API server is a store of objects; each pass records the API calls it
  issues in a trace.  Injectable faults model error returns of create,
  update and status-update calls.
- A Go panic (index out of range in `isEqual`) is modelled by `Option`:
  `none` is the undefined outcome.
-/

namespace GenAIController

/-- Resource requirements (`corev1.ResourceRequirements`); only construction
and structural equality are observable, modelled as an association list of
resource name to quantity. -/
abbrev Resources := List (String × String)

/-- A toleration (`corev1.Toleration`), opaque payload. -/
abbrev Toleration := String

/-- An affinity specification (`corev1.Affinity`), opaque payload. -/
abbrev Affinity := String

/-- A topology spread constraint (`corev1.TopologySpreadConstraint`),
opaque payload. -/
abbrev TopologySpreadConstraint := String

/-- A `corev1.VolumeMount`. -/
structure VolumeMount where
  name : String
  mountPath : String
deriving DecidableEq, Repr

/-- A `corev1.Volume`; the volume source is opaque. -/
structure Volume where
  name : String
  source : String := ""
deriving DecidableEq, Repr

/-- A `corev1.Container`, restricted to the fields the embedded code sets. -/
structure Container where
  name : String
  image : String
  resources : Resources := []
  volumeMounts : List VolumeMount := []
deriving DecidableEq, Repr

/-- A `corev1.PodSpec`, restricted to the fields the embedded code sets. -/
structure PodSpec where
  containers : List Container := []
  volumes : List Volume := []
  schedulerName : String := ""
  affinity : Option Affinity := none
  tolerations : List Toleration := []
  topologySpreadConstraints : List TopologySpreadConstraint := []
deriving DecidableEq, Repr

/-- A `corev1.PodTemplateSpec`: object meta labels plus a pod spec. -/
structure PodTemplateSpec where
  labels : List (String × String) := []
  spec : PodSpec := {}
deriving DecidableEq, Repr

/-- A `metav1.OwnerReference` as produced by `ctrl.SetControllerReference`. -/
structure OwnerReference where
  kind : String
  name : String
  controller : Bool := true
deriving DecidableEq, Repr

/-- A Go `*int32`: an allocation id (the address) and the pointee value. -/
structure Int32Ptr where
  addr : Nat
  val : Int
deriving DecidableEq, Repr

/-- Go `==` on two `*int32` values: nil equals nil, otherwise the
addresses are compared, never the pointees. -/
def ptrEq : Option Int32Ptr → Option Int32Ptr → Bool
  | none, none => true
  | some p, some q => p.addr == q.addr
  | _, _ => false

/-- An `appsv1.DeploymentSpec`, restricted to the fields the embedded code
sets or reads. -/
structure DeploymentSpec where
  replicas : Option Int32Ptr := none
  selectorMatchLabels : List (String × String) := []
  template : PodTemplateSpec := {}
deriving DecidableEq, Repr

/-- An `appsv1.Deployment`: identity fields and the spec subtree. -/
structure Deployment where
  name : String
  ns : String
  ownerReferences : List OwnerReference := []
  spec : DeploymentSpec := {}
deriving DecidableEq, Repr

/-- A `rayv1.HeadGroupSpec`. -/
structure HeadGroupSpec where
  rayStartParams : List (String × String) := []
  template : PodTemplateSpec := {}
deriving DecidableEq, Repr

/-- A `rayv1.WorkerGroupSpec`; the replicas pointer of a worker group is
never compared by the embedded code, so it is modelled by its value. -/
structure WorkerGroupSpec where
  groupName : String := ""
  replicas : Int := 0
  template : PodTemplateSpec := {}
deriving DecidableEq, Repr

/-- A `rayv1.RayClusterSpec`. -/
structure RayClusterSpec where
  headGroupSpec : HeadGroupSpec := {}
  workerGroupSpecs : List WorkerGroupSpec := []
deriving DecidableEq, Repr

/-- A `rayv1.RayCluster` with the status fields read by
`updateRayClusterStatus`. -/
structure RayCluster where
  name : String := ""
  ns : String := ""
  ownerReferences : List OwnerReference := []
  spec : RayClusterSpec := {}
  statusState : String := ""
  statusConditions : List String := []
deriving DecidableEq, Repr

/-- The head-group sub-spec of the descriptor's RayService spec. -/
structure HeadGroup where
  numCpus : String := ""
  resources : Resources := []
deriving DecidableEq, Repr

/-- The worker-group sub-spec of the descriptor's RayService spec. -/
structure WorkerGroup where
  resources : Resources := []
deriving DecidableEq, Repr

/-- The descriptor's compute-cluster sub-spec (`Spec.RayService`). -/
structure RayServiceSpec where
  enabled : Bool := false
  image : String := ""
  headGroup : HeadGroup := {}
  workerGroup : WorkerGroup := {}
  replicas : Int := 0
deriving DecidableEq, Repr

/-- The descriptor's service-A sub-spec (`Spec.SaisService`). -/
structure SaisServiceSpec where
  replicas : Int := 0
  image : String := ""
  resources : Resources := []
  volume : Volume := { name := "" }
  schedulerName : String := ""
  affinity : Affinity := ""
  tolerations : List Toleration := []
deriving DecidableEq, Repr

/-- The descriptor's service-B sub-spec (`Spec.VectorDbService`). -/
structure VectorDbServiceSpec where
  replicas : Int := 0
  image : String := ""
  resources : Resources := []
  volume : Volume := { name := "" }
  affinity : Affinity := ""
  tolerations : List Toleration := []
  topologySpreadConstraints : List TopologySpreadConstraint := []
deriving DecidableEq, Repr

/-- The `GenAIDeploymentSpec` of the parent descriptor. -/
structure GenAIDeploymentSpec where
  rayService : RayServiceSpec := {}
  saisService : SaisServiceSpec := {}
  vectorDbService : VectorDbServiceSpec := {}
deriving DecidableEq, Repr

/-- The `enterpriseApi.RayClusterStatus` written into the descriptor's
status sub-resource. -/
structure RayClusterStatus where
  clusterName : String := ""
  state : String := ""
  conditions : List String := []
deriving DecidableEq, Repr

/-- The parent descriptor (`enterpriseApi.GenAIDeployment`).  `addr` is the
allocation id of the in-memory object; addresses of its replica fields are
derived from it. -/
structure GenAIDeployment where
  addr : Nat := 0
  name : String := ""
  ns : String := ""
  spec : GenAIDeploymentSpec := {}
  statusRayClusterStatus : RayClusterStatus := {}
deriving DecidableEq, Repr

/-- Address of the field `genAIDeployment.Spec.SaisService.Replicas`,
taken by `&` in `constructSaisServiceDeployment`. -/
def saisReplicasAddr (d : GenAIDeployment) : Nat := 3 * d.addr + 1

/-- Address of the field `genAIDeployment.Spec.VectorDbService.Replicas`,
taken by `&` in `constructVectorDbDeployment`. -/
def vectorDbReplicasAddr (d : GenAIDeployment) : Nat := 3 * d.addr + 2

/-- Address of a pointer freshly allocated while decoding an object
fetched from the API server; distinct from every descriptor field address
because it is divisible by 3. -/
def freshPtrAddr (na : Nat) : Nat := 3 * na

/-- Embeds `ctrl.SetControllerReference(genAIDeployment, obj, r.Scheme)`:
the object's owner references become the single controller reference to
the parent descriptor. -/
def setControllerReference (owner : GenAIDeployment) : List OwnerReference :=
  [{ kind := "GenAIDeployment", name := owner.name, controller := true }]

/-- Embeds `constructRayCluster`: builds the RayCluster object from the
descriptor.  The source sets no owner reference on this object. -/
def constructRayCluster (genAIDeployment : GenAIDeployment) : RayCluster :=
  { name := genAIDeployment.name ++ "-raycluster"
    ns := genAIDeployment.ns
    ownerReferences := []
    spec :=
      { headGroupSpec :=
          { rayStartParams :=
              [("num-cpus", genAIDeployment.spec.rayService.headGroup.numCpus)]
            template :=
              { labels := []
                spec :=
                  { containers :=
                      [{ name := "ray-head"
                         image := genAIDeployment.spec.rayService.image
                         resources := genAIDeployment.spec.rayService.headGroup.resources
                         volumeMounts := [] }] } } }
        workerGroupSpecs :=
          [{ groupName := "ray-worker"
             replicas := genAIDeployment.spec.rayService.replicas
             template :=
               { labels := []
                 spec :=
                   { containers :=
                       [{ name := "ray-worker"
                          image := genAIDeployment.spec.rayService.image
                          resources := genAIDeployment.spec.rayService.workerGroup.resources
                          volumeMounts := [] }] } } }] } }

/-- Embeds `constructSaisServiceDeployment`: builds the service-A
Deployment from the descriptor, taking the address of the descriptor's
SaisService replicas field, and stamps the controller owner reference. -/
def constructSaisServiceDeployment (genAIDeployment : GenAIDeployment) : Deployment :=
  let labels := [("app", "sais-service"), ("deployment", genAIDeployment.name)]
  { name := genAIDeployment.name ++ "-sais-service"
    ns := genAIDeployment.ns
    ownerReferences := setControllerReference genAIDeployment
    spec :=
      { replicas := some { addr := saisReplicasAddr genAIDeployment
                           val := genAIDeployment.spec.saisService.replicas }
        selectorMatchLabels := labels
        template :=
          { labels := labels
            spec :=
              { containers :=
                  [{ name := "sais-service-container"
                     image := genAIDeployment.spec.saisService.image
                     resources := genAIDeployment.spec.saisService.resources
                     volumeMounts :=
                       [{ name := genAIDeployment.spec.saisService.volume.name
                          mountPath := "/data" }] }]
                volumes := [genAIDeployment.spec.saisService.volume]
                schedulerName := genAIDeployment.spec.saisService.schedulerName
                affinity := some genAIDeployment.spec.saisService.affinity
                tolerations := genAIDeployment.spec.saisService.tolerations
                topologySpreadConstraints := [] } } } }

/-- Embeds `constructVectorDbDeployment`: builds the service-B Deployment
from the descriptor, taking the address of the descriptor's
VectorDbService replicas field, and stamps the controller owner
reference.  Unlike service-A no scheduler name is set, and topology
spread constraints are propagated. -/
def constructVectorDbDeployment (genAIDeployment : GenAIDeployment) : Deployment :=
  let labels := [("app", "vectordb-service"), ("deployment", genAIDeployment.name)]
  { name := genAIDeployment.name ++ "-vectordb-service"
    ns := genAIDeployment.ns
    ownerReferences := setControllerReference genAIDeployment
    spec :=
      { replicas := some { addr := vectorDbReplicasAddr genAIDeployment
                           val := genAIDeployment.spec.vectorDbService.replicas }
        selectorMatchLabels := labels
        template :=
          { labels := labels
            spec :=
              { containers :=
                  [{ name := "vectordb-container"
                     image := genAIDeployment.spec.vectorDbService.image
                     resources := genAIDeployment.spec.vectorDbService.resources
                     volumeMounts :=
                       [{ name := genAIDeployment.spec.vectorDbService.volume.name
                          mountPath := "/data" }] }]
                volumes := [genAIDeployment.spec.vectorDbService.volume]
                schedulerName := ""
                affinity := some genAIDeployment.spec.vectorDbService.affinity
                tolerations := genAIDeployment.spec.vectorDbService.tolerations
                topologySpreadConstraints :=
                  genAIDeployment.spec.vectorDbService.topologySpreadConstraints } } } }

/-- Embeds `isEqual(desired, existing)`: compares the replicas pointers
with Go `==` and, only when they compare equal (Go `&&` short-circuits),
the images of the first containers.  The unguarded `Containers[0]` index
is partial; an index out of range (a Go panic) is `none`. -/
def isEqual (desired existing : Deployment) : Option Bool :=
  if ptrEq desired.spec.replicas existing.spec.replicas then
    match desired.spec.template.spec.containers, existing.spec.template.spec.containers with
    | dc :: _, ec :: _ => some (dc.image == ec.image)
    | _, _ => none
  else
    some false

/-- Embeds `updateRayCluster`: the source body is a stub that returns the
existing cluster unchanged, constructing nothing and comparing nothing. -/
def updateRayCluster (existingCluster : RayCluster)
    (_genAIDeployment : GenAIDeployment) : RayCluster :=
  existingCluster

/-- Embeds the pure part of `updateRayClusterStatus`: the descriptor's
status is overwritten with the ray cluster's name, state and
conditions.  The subsequent status-update call and its ignored error are
modelled in `Reconcile`. -/
def updateRayClusterStatus (genAIDeployment : GenAIDeployment)
    (rayCluster : RayCluster) : GenAIDeployment :=
  { genAIDeployment with
    statusRayClusterStatus :=
      { clusterName := rayCluster.name
        state := rayCluster.statusState
        conditions := rayCluster.statusConditions } }

/-- Error taxonomy of the State Store Client. -/
inductive Err where
  | notFound
  | alreadyExists
  | conflict
  | transport
deriving DecidableEq, Repr

/-- Embeds `CreateResource` from `pkg/splunk/util/util.go`, parameterised
by the outcome of the underlying `client.Create` call: an AlreadyExists
error is swallowed (treated as success), every other error is returned. -/
def CreateResource (createOutcome : Option Err) : Option Err :=
  match createOutcome with
  | some e => if e = Err.alreadyExists then none else some e
  | none => none

/-- An API call issued by a reconciliation pass, recorded in order. -/
inductive ApiCall where
  | getDescriptor (name ns : String)
  | getRay (name ns : String)
  | createRay (rc : RayCluster)
  | updateRay (rc : RayCluster)
  | statusUpdate (d : GenAIDeployment)
  | getDep (name ns : String)
  | createDep (d : Deployment)
  | updateDep (d : Deployment)
deriving DecidableEq, Repr

/-- Whether a call mutates the store (create, update, or status update). -/
def ApiCall.isWrite : ApiCall → Bool
  | .createRay _ | .updateRay _ | .statusUpdate _ | .createDep _ | .updateDep _ => true
  | _ => false

/-- The write calls of a trace. -/
def writeCalls (t : List ApiCall) : List ApiCall := t.filter ApiCall.isWrite

/-- Injectable error outcomes for the write calls a pass can issue;
`none` means the call succeeds against the store. -/
structure Faults where
  rayCreate : Option Err := none
  rayUpdate : Option Err := none
  statusUpdateFails : Bool := false
  saisCreate : Option Err := none
  saisUpdate : Option Err := none
  vectorDbCreate : Option Err := none
  vectorDbUpdate : Option Err := none
deriving DecidableEq, Repr

/-- The API server's object store, keyed by name and namespace. -/
structure Store where
  genais : List GenAIDeployment := []
  rayClusters : List RayCluster := []
  deployments : List Deployment := []
deriving DecidableEq, Repr

/-- The state the reconciler's client sees: the store, the next fresh
allocation id for decoded objects, and the injected faults. -/
structure ClientState where
  store : Store := {}
  nextAddr : Nat := 0
  faults : Faults := {}
deriving DecidableEq, Repr

/-- Get a descriptor by namespaced name. -/
def lookupGenai (l : List GenAIDeployment) (name ns : String) : Option GenAIDeployment :=
  l.find? (fun d => d.name == name && d.ns == ns)

/-- Get a ray cluster by namespaced name. -/
def lookupRayCluster (l : List RayCluster) (name ns : String) : Option RayCluster :=
  l.find? (fun rc => rc.name == name && rc.ns == ns)

/-- Get a deployment by namespaced name. -/
def lookupDeployment (l : List Deployment) (name ns : String) : Option Deployment :=
  l.find? (fun d => d.name == name && d.ns == ns)

/-- Store effect of a successful ray cluster update call. -/
def storeRayCluster (l : List RayCluster) (rc : RayCluster) : List RayCluster :=
  l.map (fun x => if x.name == rc.name && x.ns == rc.ns then rc else x)

/-- Store effect of a successful deployment update call. -/
def storeDeployment (l : List Deployment) (d : Deployment) : List Deployment :=
  l.map (fun x => if x.name == d.name && x.ns == d.ns then d else x)

/-- Store effect of a successful status-update call: only the status
sub-resource of the stored descriptor changes. -/
def writeDescriptorStatus (l : List GenAIDeployment) (d : GenAIDeployment) :
    List GenAIDeployment :=
  l.map (fun x =>
    if x.name == d.name && x.ns == d.ns then
      { x with statusRayClusterStatus := d.statusRayClusterStatus }
    else x)

/-- Decoding a Deployment fetched from the API server allocates fresh
memory: its replicas pointer (when non-nil) is a fresh allocation,
distinct from every pointer into the reconciler's in-memory descriptor. -/
def deserializeDeployment (na : Nat) (d : Deployment) : Deployment :=
  { d with spec :=
      { d.spec with replicas :=
          d.spec.replicas.map (fun p => { addr := freshPtrAddr na, val := p.val }) } }

/-- Decoding a descriptor fetched from the API server allocates a fresh
in-memory object. -/
def deserializeDescriptor (na : Nat) (d : GenAIDeployment) : GenAIDeployment :=
  { d with addr := na }

/-- Outcome of a pass or of one of its steps: success, an error returned
to the caller, or a Go panic. -/
inductive StepOutcome where
  | ok
  | err (e : Err)
  | panicked
deriving DecidableEq, Repr

/-- Result of one service-deployment reconciliation step. -/
structure ServiceStepResult where
  outcome : StepOutcome
  deployments : List Deployment
  nextAddr : Nat
  trace : List ApiCall
deriving DecidableEq, Repr

/-- Embeds the shared shape of `reconcileSaisServiceDeployment` and
`reconcileVectorDbDeployment`: fetch by the desired object's name; if
absent, create the desired object; if present, decode it, and when
`isEqual` reports inequality overwrite only the spec subtree of the
existing object and update it.  A `none` from `isEqual` is a panic. -/
def reconcileServiceDeployment (desired : Deployment)
    (createFault updateFault : Option Err)
    (deployments : List Deployment) (na : Nat) : ServiceStepResult :=
  match lookupDeployment deployments desired.name desired.ns with
  | none =>
    match createFault with
    | some e =>
      { outcome := .err e, deployments := deployments, nextAddr := na
        trace := [.getDep desired.name desired.ns, .createDep desired] }
    | none =>
      { outcome := .ok, deployments := deployments ++ [desired], nextAddr := na
        trace := [.getDep desired.name desired.ns, .createDep desired] }
  | some existingStored =>
    match isEqual desired (deserializeDeployment na existingStored) with
    | none =>
      { outcome := .panicked, deployments := deployments, nextAddr := na + 1
        trace := [.getDep desired.name desired.ns] }
    | some true =>
      { outcome := .ok, deployments := deployments, nextAddr := na + 1
        trace := [.getDep desired.name desired.ns] }
    | some false =>
      match updateFault with
      | some e =>
        { outcome := .err e, deployments := deployments, nextAddr := na + 1
          trace := [.getDep desired.name desired.ns,
            .updateDep { deserializeDeployment na existingStored with spec := desired.spec }] }
      | none =>
        { outcome := .ok
          deployments := storeDeployment deployments
            { deserializeDeployment na existingStored with spec := desired.spec }
          nextAddr := na + 1
          trace := [.getDep desired.name desired.ns,
            .updateDep { deserializeDeployment na existingStored with spec := desired.spec }] }

/-- Embeds `reconcileSaisServiceDeployment`. -/
def reconcileSaisServiceDeployment (genAIDeployment : GenAIDeployment)
    (faults : Faults) (deployments : List Deployment) (na : Nat) : ServiceStepResult :=
  reconcileServiceDeployment (constructSaisServiceDeployment genAIDeployment)
    faults.saisCreate faults.saisUpdate deployments na

/-- Embeds `reconcileVectorDbDeployment`. -/
def reconcileVectorDbDeployment (genAIDeployment : GenAIDeployment)
    (faults : Faults) (deployments : List Deployment) (na : Nat) : ServiceStepResult :=
  reconcileServiceDeployment (constructVectorDbDeployment genAIDeployment)
    faults.vectorDbCreate faults.vectorDbUpdate deployments na

/-- The tail of `Reconcile` after the ray branch: the service-A step,
then, only if it succeeded, the service-B step (the source returns on the
first error). -/
def runServices (faults : Faults) (d : GenAIDeployment)
    (deployments : List Deployment) (na : Nat) : ServiceStepResult :=
  let s := reconcileSaisServiceDeployment d faults deployments na
  match s.outcome with
  | .ok =>
    let v := reconcileVectorDbDeployment d faults s.deployments s.nextAddr
    { outcome := v.outcome, deployments := v.deployments
      nextAddr := v.nextAddr, trace := s.trace ++ v.trace }
  | _ => s

/-- Result of one full reconciliation pass. -/
structure RecResult where
  outcome : StepOutcome
  client : ClientState
  trace : List ApiCall
deriving DecidableEq, Repr

/-- The part of `Reconcile` after a successful ray create or update:
`updateRayClusterStatus` mutates the in-memory descriptor's status and
issues a status-update call whose error is logged and ignored, then both
service steps run. -/
def afterRay (c : ClientState) (rayClusters1 : List RayCluster)
    (d : GenAIDeployment) (rayCluster : RayCluster) (na : Nat)
    (t : List ApiCall) : RecResult :=
  let d1 := updateRayClusterStatus d rayCluster
  let genais1 :=
    if c.faults.statusUpdateFails then c.store.genais
    else writeDescriptorStatus c.store.genais d1
  let s := runServices c.faults d1 c.store.deployments na
  { outcome := s.outcome
    client :=
      { c with
        store := { genais := genais1, rayClusters := rayClusters1
                   deployments := s.deployments }
        nextAddr := s.nextAddr }
    trace := (t ++ [ApiCall.statusUpdate d1]) ++ s.trace }

/-- The part of `Reconcile` taken when the RayService sub-spec is
disabled: only the two service steps run. -/
def noRay (c : ClientState) (d : GenAIDeployment) (na : Nat)
    (t : List ApiCall) : RecResult :=
  let s := runServices c.faults d c.store.deployments na
  { outcome := s.outcome
    client :=
      { c with
        store := { c.store with deployments := s.deployments }
        nextAddr := s.nextAddr }
    trace := t ++ s.trace }

/-- Embeds `GenAIDeploymentReconciler.Reconcile`: fetch the descriptor
(not found terminates successfully); when the RayService sub-spec is
enabled fetch the ray cluster by derived name, create it when absent or
update it (via the stub `updateRayCluster`) unconditionally when present,
aborting on a create or update error; then update the descriptor status
ignoring status-update errors; then reconcile the two service
deployments, aborting on the first error. -/
def Reconcile (c : ClientState) (reqName reqNamespace : String) : RecResult :=
  match lookupGenai c.store.genais reqName reqNamespace with
  | none =>
    { outcome := .ok, client := c
      trace := [ApiCall.getDescriptor reqName reqNamespace] }
  | some stored =>
    let genAIDeployment := deserializeDescriptor c.nextAddr stored
    let na := c.nextAddr + 1
    let t0 := [ApiCall.getDescriptor reqName reqNamespace]
    if genAIDeployment.spec.rayService.enabled then
      let rayName := reqName ++ "-raycluster"
      match lookupRayCluster c.store.rayClusters rayName reqNamespace with
      | none =>
        let newRayCluster := constructRayCluster genAIDeployment
        let t1 := t0 ++ [ApiCall.getRay rayName reqNamespace, ApiCall.createRay newRayCluster]
        match c.faults.rayCreate with
        | some e => { outcome := .err e, client := { c with nextAddr := na }, trace := t1 }
        | none =>
          afterRay c (c.store.rayClusters ++ [newRayCluster]) genAIDeployment {} na t1
      | some existingCluster =>
        let updatedRayCluster := updateRayCluster existingCluster genAIDeployment
        let t1 := t0 ++ [ApiCall.getRay rayName reqNamespace, ApiCall.updateRay updatedRayCluster]
        match c.faults.rayUpdate with
        | some e => { outcome := .err e, client := { c with nextAddr := na }, trace := t1 }
        | none =>
          afterRay c (storeRayCluster c.store.rayClusters updatedRayCluster)
            genAIDeployment existingCluster na t1
    else
      noRay c genAIDeployment na t0

/-- A concrete descriptor with all three sub-specs populated and the
compute-cluster sub-spec enabled; `a` is its allocation id. -/
def exampleDesc (a : Nat) : GenAIDeployment :=
  { addr := a
    name := "example"
    ns := "splunk-ns"
    spec :=
      { rayService :=
          { enabled := true, image := "ray-image"
            headGroup := { numCpus := "4", resources := [("cpu", "4")] }
            workerGroup := { resources := [("cpu", "2")] }
            replicas := 3 }
        saisService :=
          { replicas := 2, image := "sais-image", resources := [("memory", "1Gi")]
            volume := { name := "sais-vol", source := "pvc-a" }
            schedulerName := "custom-sched", affinity := "affinity-a"
            tolerations := ["tol-a"] }
        vectorDbService :=
          { replicas := 1, image := "vectordb-image", resources := [("memory", "2Gi")]
            volume := { name := "vec-vol", source := "pvc-b" }
            affinity := "affinity-b", tolerations := []
            topologySpreadConstraints := ["spread-zone"] } } }

/-- A client whose store holds only the example descriptor. -/
def initialClient : ClientState := { store := { genais := [exampleDesc 0] } }

/-- The first reconciliation pass over the example descriptor. -/
def pass1 : RecResult := Reconcile initialClient "example" "splunk-ns"

/-- The second reconciliation pass, run on the state the first pass left,
with no external change in between. -/
def pass2 : RecResult := Reconcile pass1.client "example" "splunk-ns"

/-- A stored ray cluster whose spec coincides with the spec freshly
constructed from the example descriptor (built from a copy of the
descriptor at a different allocation id; the constructed spec does not
depend on the id). -/
def c2ExistingRay : RayCluster := constructRayCluster (exampleDesc 42)

/-- A client whose store already holds a ray cluster equal to the desired
one. -/
def c2Client : ClientState :=
  { store := { genais := [exampleDesc 0], rayClusters := [c2ExistingRay] } }

/-- A deployment with nil replicas pointer, one container, and every
optional field populated; base for the diff-completeness variants. -/
def baseDeployment : Deployment :=
  { name := "dep", ns := "ns1"
    spec :=
      { replicas := none
        selectorMatchLabels := [("app", "x")]
        template :=
          { labels := [("app", "x")]
            spec :=
              { containers :=
                  [{ name := "c0", image := "img", resources := [("cpu", "1")]
                     volumeMounts := [] }]
                volumes := [{ name := "v0", source := "s0" }]
                schedulerName := "sched0"
                affinity := some "aff0"
                tolerations := ["t0"]
                topologySpreadConstraints := [] } } } }

/-- The base deployment with only its topology spread constraints changed. -/
def withTopologySpread : Deployment :=
  { baseDeployment with spec.template.spec.topologySpreadConstraints := ["zone"] }

/-- The base deployment with only its tolerations changed. -/
def withTolerations : Deployment :=
  { baseDeployment with spec.template.spec.tolerations := ["t0", "t1"] }

/-- The base deployment with only its affinity changed. -/
def withAffinity : Deployment :=
  { baseDeployment with spec.template.spec.affinity := some "aff1" }

/-- The base deployment with only its volumes changed. -/
def withVolume : Deployment :=
  { baseDeployment with spec.template.spec.volumes := [{ name := "v1", source := "s1" }] }

/-- The base deployment with only its scheduler name changed. -/
def withScheduler : Deployment :=
  { baseDeployment with spec.template.spec.schedulerName := "sched1" }

/-- The base deployment with only the container resource requests changed. -/
def withResources : Deployment :=
  { baseDeployment with spec.template.spec.containers :=
      [{ name := "c0", image := "img", resources := [("cpu", "2")], volumeMounts := [] }] }

/-- A client whose ray cluster create call is answered with AlreadyExists
(for instance because a concurrent pass created the cluster between the
failed get and the create). -/
def c4Client : ClientState :=
  { store := { genais := [exampleDesc 0] }
    faults := { rayCreate := some Err.alreadyExists } }

/-- A client holding the example descriptor whose status-update calls
fail. -/
def c8Client : ClientState :=
  { store := { genais := [exampleDesc 0] }
    faults := { statusUpdateFails := true } }

/-- A stored service-A deployment that diverges from the desired one (its
image is stale) and carries its own identity fields. -/
def c9ExistingSais : Deployment :=
  { name := "example-sais-service", ns := "splunk-ns"
    ownerReferences := [{ kind := "GenAIDeployment", name := "example", controller := true }]
    spec :=
      { replicas := some { addr := 600, val := 2 }
        template :=
          { spec :=
              { containers := [{ name := "sais-service-container", image := "old-image" }] } } } }

/-- A stored service-B deployment that diverges from the desired one. -/
def c9ExistingVec : Deployment :=
  { name := "example-vectordb-service", ns := "splunk-ns"
    ownerReferences := [{ kind := "GenAIDeployment", name := "example", controller := true }]
    spec :=
      { replicas := some { addr := 601, val := 1 }
        template :=
          { spec :=
              { containers := [{ name := "vectordb-container", image := "old-image" }] } } } }

/-- Two deployments with distinct non-nil replicas pointers and empty
container lists on both sides. -/
def c10NoGuardDesired : Deployment :=
  { name := "d", ns := "n"
    spec := { replicas := some { addr := 0, val := 1 }
              template := { spec := { containers := [] } } } }

/-- Companion to `c10NoGuardDesired` with a different pointer address. -/
def c10NoGuardExisting : Deployment :=
  { name := "d", ns := "n"
    spec := { replicas := some { addr := 3, val := 1 }
              template := { spec := { containers := [] } } } }

/-- A desired deployment with nil replicas and one container. -/
def c10PanicDesired : Deployment :=
  { name := "d", ns := "n"
    spec := { replicas := none
              template := { spec := { containers := [{ name := "c", image := "i" }] } } } }

/-- An existing deployment with nil replicas and an empty container list:
with both replicas nil the pointer comparison succeeds and the container
index is evaluated. -/
def c10PanicExisting : Deployment :=
  { name := "d", ns := "n"
    spec := { replicas := none
              template := { spec := { containers := [] } } } }

/-- The first API call of a service step is always the get addressed with
the desired object's derived name and namespace. -/
theorem reconcileServiceDeployment_head (desired : Deployment)
    (cF uF : Option Err) (deps : List Deployment) (na : Nat) :
    (reconcileServiceDeployment desired cF uF deps na).trace.head?
      = some (ApiCall.getDep desired.name desired.ns) := by
  unfold reconcileServiceDeployment
  cases lookupDeployment deps desired.name desired.ns with
  | none => cases cF <;> rfl
  | some ex =>
    dsimp only
    cases isEqual desired (deserializeDeployment na ex) with
    | none => rfl
    | some b =>
      cases b with
      | false => cases uF <;> rfl
      | true => rfl

/-- C1: the claim says a second reconciliation pass over an unchanged
descriptor issues zero additional write calls.  The code violates this:
starting from the state the first pass produced, the second pass issues
four write calls (the unconditional ray cluster update, the status
update, and an update of each service deployment, the latter because
`isEqual` compares the replicas pointers, which always differ between the
freshly constructed desired object and the object decoded from the
store). -/
theorem c1_second_pass_issues_writes :
    pass1.outcome = StepOutcome.ok ∧ (writeCalls pass1.trace).length = 4 ∧
    pass2.outcome = StepOutcome.ok ∧ (writeCalls pass2.trace).length = 4 := by
  decide

/-- C2: the claim says that with an existing compute cluster the pass
compares the freshly constructed desired spec with the existing one and
updates only when they are unequal.  The code violates this: with a
stored ray cluster whose spec equals the freshly constructed desired spec
(and the stub `updateRayCluster` returning the existing object
unchanged), the pass still issues an update write for it. -/
theorem c2_equal_ray_spec_still_updated :
    (constructRayCluster (exampleDesc 0)).spec = c2ExistingRay.spec ∧
    (constructRayCluster (exampleDesc 0)).name = c2ExistingRay.name ∧
    updateRayCluster c2ExistingRay (exampleDesc 0) = c2ExistingRay ∧
    ApiCall.updateRay c2ExistingRay ∈ writeCalls (Reconcile c2Client "example" "splunk-ns").trace := by
  decide

/-- C3: the claim says specs differing only in an optional field
(topology spread constraints, tolerations, affinity, volume, scheduler
name, resource requests) are classified as unequal.  The code violates
this: `isEqual` inspects only the replicas pointers and the first
container image, so each variant below is classified as equal to the base
although its spec differs. -/
theorem c3_diff_ignores_optional_fields :
    (isEqual baseDeployment withTopologySpread = some true ∧
      baseDeployment.spec ≠ withTopologySpread.spec) ∧
    (isEqual baseDeployment withTolerations = some true ∧
      baseDeployment.spec ≠ withTolerations.spec) ∧
    (isEqual baseDeployment withAffinity = some true ∧
      baseDeployment.spec ≠ withAffinity.spec) ∧
    (isEqual baseDeployment withVolume = some true ∧
      baseDeployment.spec ≠ withVolume.spec) ∧
    (isEqual baseDeployment withScheduler = some true ∧
      baseDeployment.spec ≠ withScheduler.spec) ∧
    (isEqual baseDeployment withResources = some true ∧
      baseDeployment.spec ≠ withResources.spec) := by
  decide

/-- C4: the claim says a create failing with AlreadyExists is treated as
success by the pass.  The code violates this: `Reconcile` propagates the
raw error of its direct create calls, so an AlreadyExists answer fails
the pass, although the repository's own helper `CreateResource` swallows
exactly that error. -/
theorem c4_already_exists_fails_pass :
    (Reconcile c4Client "example" "splunk-ns").outcome = StepOutcome.err Err.alreadyExists ∧
    CreateResource (some Err.alreadyExists) = none ∧
    CreateResource (some Err.transport) = some Err.transport := by
  decide

/-- C5: the claim says every managed resource is stamped with an owner
back-reference at construction, before its first create.  The code
violates this for the compute cluster: `constructRayCluster` sets no
owner reference and the first pass issues its create call with an empty
owner reference list, while both service constructors do stamp the
controller reference. -/
theorem c5_ray_cluster_lacks_owner_reference :
    (constructRayCluster (exampleDesc 0)).ownerReferences = [] ∧
    ApiCall.createRay (constructRayCluster (exampleDesc 0)) ∈ pass1.trace ∧
    (∀ d : GenAIDeployment,
      (constructSaisServiceDeployment d).ownerReferences = setControllerReference d ∧
      (constructVectorDbDeployment d).ownerReferences = setControllerReference d) := by
  exact ⟨rfl, by decide, fun d => ⟨rfl, rfl⟩⟩

/-- C6: when the descriptor is not found the pass returns success and its
trace consists of the descriptor get alone — no managed-resource API call
of any kind is issued. -/
theorem c6_notfound_noop (c : ClientState) (n ns : String)
    (h : lookupGenai c.store.genais n ns = none) :
    (Reconcile c n ns).outcome = StepOutcome.ok ∧
    (Reconcile c n ns).trace = [ApiCall.getDescriptor n ns] := by
  unfold Reconcile
  rw [h]
  exact ⟨rfl, rfl⟩

/-- Witness for C6 at an empty store. -/
theorem c6_notfound_noop_witness :
    (Reconcile {} "a" "b").outcome = StepOutcome.ok ∧
    (Reconcile {} "a" "b").trace = [ApiCall.getDescriptor "a" "b"] :=
  c6_notfound_noop {} "a" "b" (by decide)

/-- C7: for a descriptor named `x` in namespace `ns` the service-A
deployment is constructed with name `x-sais-service` and the service-B
deployment with name `x-vectordb-service`, both in `ns`, and each service
step addresses its get at exactly that derived name. -/
theorem c7_derived_names (d : GenAIDeployment) (faults : Faults)
    (deps : List Deployment) (na : Nat) :
    (constructSaisServiceDeployment d).name = d.name ++ "-sais-service" ∧
    (constructSaisServiceDeployment d).ns = d.ns ∧
    (constructVectorDbDeployment d).name = d.name ++ "-vectordb-service" ∧
    (constructVectorDbDeployment d).ns = d.ns ∧
    (reconcileSaisServiceDeployment d faults deps na).trace.head?
      = some (ApiCall.getDep (d.name ++ "-sais-service") d.ns) ∧
    (reconcileVectorDbDeployment d faults deps na).trace.head?
      = some (ApiCall.getDep (d.name ++ "-vectordb-service") d.ns) := by
  refine ⟨rfl, rfl, rfl, rfl, ?_, ?_⟩
  · exact reconcileServiceDeployment_head (constructSaisServiceDeployment d)
      faults.saisCreate faults.saisUpdate deps na
  · exact reconcileServiceDeployment_head (constructVectorDbDeployment d)
      faults.vectorDbCreate faults.vectorDbUpdate deps na

/-- C8: a failing status update neither changes the pass's result nor its
sequence of API calls (for every client state), and concretely, with
status updates failing, the service-A and service-B steps still run and
the pass succeeds. -/
theorem c8_status_failure_nonfatal :
    (∀ (c : ClientState) (n ns : String),
      (Reconcile { c with faults := { c.faults with statusUpdateFails := true } } n ns).outcome
        = (Reconcile { c with faults := { c.faults with statusUpdateFails := false } } n ns).outcome
      ∧ (Reconcile { c with faults := { c.faults with statusUpdateFails := true } } n ns).trace
        = (Reconcile { c with faults := { c.faults with statusUpdateFails := false } } n ns).trace) ∧
    ApiCall.getDep "example-sais-service" "splunk-ns"
      ∈ (Reconcile c8Client "example" "splunk-ns").trace ∧
    ApiCall.getDep "example-vectordb-service" "splunk-ns"
      ∈ (Reconcile c8Client "example" "splunk-ns").trace ∧
    (Reconcile c8Client "example" "splunk-ns").outcome = StepOutcome.ok := by
  refine ⟨fun c n ns => ?_, by decide, by decide, by decide⟩
  unfold Reconcile
  dsimp only
  cases lookupGenai c.store.genais n ns with
  | none => exact ⟨rfl, rfl⟩
  | some stored =>
    dsimp only [deserializeDescriptor]
    cases hEn : stored.spec.rayService.enabled with
    | false => exact ⟨rfl, rfl⟩
    | true =>
      cases lookupRayCluster c.store.rayClusters (n ++ "-raycluster") ns with
      | none =>
        cases c.faults.rayCreate with
        | some e => exact ⟨rfl, rfl⟩
        | none => exact ⟨rfl, rfl⟩
      | some rc =>
        cases c.faults.rayUpdate with
        | some e => exact ⟨rfl, rfl⟩
        | none => exact ⟨rfl, rfl⟩

/-- C9: whenever a service step finds an existing deployment and the
evaluator reports divergence, the object passed to the update call is the
existing object with only its spec subtree replaced by the desired spec;
its name, namespace and owner references are those of the existing
object. -/
theorem c9_update_preserves_identity :
    (∀ (d : GenAIDeployment) (faults : Faults) (deployments : List Deployment)
        (na : Nat) (ex : Deployment),
      lookupDeployment deployments (constructSaisServiceDeployment d).name
          (constructSaisServiceDeployment d).ns = some ex →
      isEqual (constructSaisServiceDeployment d) (deserializeDeployment na ex) = some false →
      ApiCall.updateDep
          { deserializeDeployment na ex with spec := (constructSaisServiceDeployment d).spec }
        ∈ (reconcileSaisServiceDeployment d faults deployments na).trace
      ∧ ({ deserializeDeployment na ex with
            spec := (constructSaisServiceDeployment d).spec } : Deployment).name = ex.name
      ∧ ({ deserializeDeployment na ex with
            spec := (constructSaisServiceDeployment d).spec } : Deployment).ns = ex.ns
      ∧ ({ deserializeDeployment na ex with
            spec := (constructSaisServiceDeployment d).spec } : Deployment).ownerReferences
          = ex.ownerReferences) ∧
    (∀ (d : GenAIDeployment) (faults : Faults) (deployments : List Deployment)
        (na : Nat) (ex : Deployment),
      lookupDeployment deployments (constructVectorDbDeployment d).name
          (constructVectorDbDeployment d).ns = some ex →
      isEqual (constructVectorDbDeployment d) (deserializeDeployment na ex) = some false →
      ApiCall.updateDep
          { deserializeDeployment na ex with spec := (constructVectorDbDeployment d).spec }
        ∈ (reconcileVectorDbDeployment d faults deployments na).trace
      ∧ ({ deserializeDeployment na ex with
            spec := (constructVectorDbDeployment d).spec } : Deployment).name = ex.name
      ∧ ({ deserializeDeployment na ex with
            spec := (constructVectorDbDeployment d).spec } : Deployment).ns = ex.ns
      ∧ ({ deserializeDeployment na ex with
            spec := (constructVectorDbDeployment d).spec } : Deployment).ownerReferences
          = ex.ownerReferences) := by
  constructor
  · intro d faults deployments na ex hGet hNe
    simp only [reconcileSaisServiceDeployment, reconcileServiceDeployment, hGet, hNe]
    cases faults.saisUpdate <;>
      exact ⟨List.Mem.tail _ (List.Mem.head _), rfl, rfl, rfl⟩
  · intro d faults deployments na ex hGet hNe
    simp only [reconcileVectorDbDeployment, reconcileServiceDeployment, hGet, hNe]
    cases faults.vectorDbUpdate <;>
      exact ⟨List.Mem.tail _ (List.Mem.head _), rfl, rfl, rfl⟩

/-- Witness for C9: both service steps, run against a stored deployment
with a stale image, issue an update whose payload is the existing object
with only the spec replaced. -/
theorem c9_update_preserves_identity_witness :
    ApiCall.updateDep
        { deserializeDeployment 7 c9ExistingSais with
          spec := (constructSaisServiceDeployment (exampleDesc 0)).spec }
      ∈ (reconcileSaisServiceDeployment (exampleDesc 0) {} [c9ExistingSais] 7).trace ∧
    ApiCall.updateDep
        { deserializeDeployment 7 c9ExistingVec with
          spec := (constructVectorDbDeployment (exampleDesc 0)).spec }
      ∈ (reconcileVectorDbDeployment (exampleDesc 0) {} [c9ExistingVec] 7).trace :=
  ⟨(c9_update_preserves_identity.1 (exampleDesc 0) {} [c9ExistingSais] 7 c9ExistingSais
      (by decide) (by decide)).1,
   (c9_update_preserves_identity.2 (exampleDesc 0) {} [c9ExistingVec] 7 c9ExistingVec
      (by decide) (by decide)).1⟩

/-- C10 counterexample: the claim states `isEqual` is well-defined only
when both pod templates have at least one container, but Go `&&`
short-circuits: with unequal non-nil replicas pointers `isEqual` is
defined (it returns false) even though both container lists are empty. -/
theorem c10_counterexample_shortcircuit :
    isEqual c10NoGuardDesired c10NoGuardExisting = some false ∧
    c10NoGuardDesired.spec.template.spec.containers = [] ∧
    c10NoGuardExisting.spec.template.spec.containers = [] := by
  decide

/-- C10 (amended): `isEqual` accesses the first containers without a
guard whenever the replicas pointer comparison succeeds; it is
well-defined whenever both pod templates have at least one container, and
for an input with pointer-equal (here both nil) replicas and an existing
deployment whose container list is empty its evaluation is undefined
(index out of range). -/
theorem c10_isEqual_partiality :
    (∀ de ee : Deployment,
      de.spec.template.spec.containers ≠ [] →
      ee.spec.template.spec.containers ≠ [] →
      (isEqual de ee).isSome = true) ∧
    isEqual c10PanicDesired c10PanicExisting = none := by
  constructor
  · intro de ee hd he
    unfold isEqual
    cases hpe : ptrEq de.spec.replicas ee.spec.replicas with
    | false => rfl
    | true =>
      cases hcd : de.spec.template.spec.containers with
      | nil => exact absurd hcd hd
      | cons a as =>
        cases hce : ee.spec.template.spec.containers with
        | nil => exact absurd hce he
        | cons b bs => rfl
  · rfl

/-- Witness for C10: at two deployments with non-empty container lists
the evaluator is defined. -/
theorem c10_isEqual_partiality_witness :
    (isEqual c10PanicDesired c10PanicDesired).isSome = true :=
  c10_isEqual_partiality.1 c10PanicDesired c10PanicDesired (by decide) (by decide)

end GenAIController
